import Mathlib

set_option maxRecDepth 100000

/-!
Verification of the video-search scene-detection and feature-indexing core.

This file contains a shallow embedding, in Lean 4, of the algorithmic core of
the repository:

* the shot-record data model (`SceneChangePoint`, generic in the scalar type of
  the embedding vector, mirroring `SceneChangePoint<T>` from
  `src/shared/types/index.d.ts`);
* the serialization layer (`FeatureSerializationUtils` from the
  feature-serialization module);
* the histogram differencer (`calculateHistogramDifference` from
  `src/app/utils/video-analysis.ts`);
* the shot-detector state machine (`createVideoFrameSceneDetector.processFrame`
  from `src/app/utils/video-analysis.ts`);
* the similarity kernel (`CLIPTextExtractor.calculateTextImageSimilarity` and
  `normalizeFeatures` from `src/app/utils/text-feature-extractor.ts` and
  `src/app/utils/image-feature-extractor.ts`);
* the text search engine (`TextSearchService.searchByText` from
  `src/app/utils/text-search-service.ts`).

Modelling conventions:

* JavaScript numbers are modelled as `ℚ` wherever the source only performs
  field operations and comparisons (histogram, detector, serialization), and as
  `ℝ` where a square root occurs (vector normalization and cosine similarity).
  In each concrete evaluation appearing below, the floating-point computation
  of the source performs the same case splits as the exact one, so the exact
  model is faithful on those inputs.
* External collaborators (canvas downsizing, blob-URL creation, thumbnail file
  writes, the neural embedding provider) are modelled as opaque per-call inputs
  (`ExternalOutcomes`) or are applied before the modelled function (the query
  text's feature vector is an input of the search model, as extraction is an
  external neural encoder).
* Fallible code (`throw` in `calculateTextImageSimilarity`) is modelled with
  `Except`.
-/

namespace VideoSearch

/-! ## Data model -/

/-- Scene-change point record, generic in the scalar type of the embedding
vector (mirrors `SceneChangePoint<T>` in `src/shared/types/index.d.ts`:
optional fields become `Option`, the feature vector — `Float32Array` at
runtime, `number[]` when stored — becomes `Option (List α)`). -/
structure SceneChangePoint (α : Type) where
  timestamp : ℚ
  score : ℚ
  frameIndex : ℕ
  formattedTime : Option String := none
  thumbnailFileName : Option String := none
  duration : Option ℚ := none
  formattedDuration : Option String := none
  frameImageUrl : Option String := none
  imageFeatures : Option (List α) := none
deriving DecidableEq

/-! ## Serialization layer

`FeatureSerializationUtils`.  `serializeFeatures` is
`Array.from : Float32Array → number[]` and `deserializeFeatures` is
`new Float32Array : number[] → Float32Array`.  Every `float32` value is
exactly representable as a `float64`, and converting such a value back to
`float32` is exact, so on the values that actually flow through the
serialize-then-deserialize composition both maps are value-preserving; they
are therefore modelled as the identity on `List α`. -/

/-- Embeds `FeatureSerializationUtils.serializeFeatures` (`Array.from`). -/
def serializeFeatures {α : Type} (features : List α) : List α := features

/-- Embeds `FeatureSerializationUtils.deserializeFeatures`
(`new Float32Array`). -/
def deserializeFeatures {α : Type} (featuresArray : List α) : List α := featuresArray

/-- Embeds `FeatureSerializationUtils.serializeSceneChangePoint`: copies the
seven plain data fields, serializes `imageFeatures` when present (a JS
`Float32Array`, even an empty one, is truthy, so the source's truthiness check
is exactly a presence check), and does not set `frameImageUrl` (the stored
object literal has no such key). -/
def serializeSceneChangePoint {α : Type} (scene : SceneChangePoint α) : SceneChangePoint α :=
  { timestamp := scene.timestamp
    score := scene.score
    frameIndex := scene.frameIndex
    formattedTime := scene.formattedTime
    thumbnailFileName := scene.thumbnailFileName
    duration := scene.duration
    formattedDuration := scene.formattedDuration
    frameImageUrl := none
    imageFeatures := scene.imageFeatures.map serializeFeatures }

/-- Embeds `FeatureSerializationUtils.deserializeSceneChangePoint`. -/
def deserializeSceneChangePoint {α : Type} (storedScene : SceneChangePoint α) :
    SceneChangePoint α :=
  { timestamp := storedScene.timestamp
    score := storedScene.score
    frameIndex := storedScene.frameIndex
    formattedTime := storedScene.formattedTime
    thumbnailFileName := storedScene.thumbnailFileName
    duration := storedScene.duration
    formattedDuration := storedScene.formattedDuration
    frameImageUrl := none
    imageFeatures := storedScene.imageFeatures.map deserializeFeatures }

/-- Embeds `FeatureSerializationUtils.serializeScenes`. -/
def serializeScenes {α : Type} (scenes : List (SceneChangePoint α)) :
    List (SceneChangePoint α) :=
  scenes.map serializeSceneChangePoint

/-- Embeds `FeatureSerializationUtils.deserializeScenes`. -/
def deserializeScenes {α : Type} (storedScenes : List (SceneChangePoint α)) :
    List (SceneChangePoint α) :=
  storedScenes.map deserializeSceneChangePoint

/-- Clearing the transient blob-URL field; the round trip below is exactly
this map. -/
def clearFrameImageUrl {α : Type} (scene : SceneChangePoint α) : SceneChangePoint α :=
  { scene with frameImageUrl := none }

/-- Concrete shot list used by the C1 witness: one shot with an embedding, one
without, neither carrying a transient blob URL. -/
def c1DemoScenes : List (SceneChangePoint ℚ) :=
  [{ timestamp := 0, score := 0, frameIndex := 0, formattedTime := some "00:00",
     thumbnailFileName := some "v_frame_0_000000.jpg", duration := some 5,
     formattedDuration := some "00:05", frameImageUrl := none,
     imageFeatures := some [1, 2, 3] },
   { timestamp := 5, score := 1, frameIndex := 150, formattedTime := some "00:05",
     thumbnailFileName := none, duration := none, formattedDuration := none,
     frameImageUrl := none, imageFeatures := none }]

/-- Shot carrying a transient blob URL, refuting the unrestricted round-trip
claim. -/
def c1CexScene : SceneChangePoint ℚ :=
  { timestamp := 0, score := 0, frameIndex := 0, frameImageUrl := some "blob:a" }

/-! ## Histogram differencer

`calculateHistogramDifference` from `src/app/utils/video-analysis.ts` (the
copy in the second document section of `src/app/utils/text-search-service.ts`
is character-identical).  Pixels are RGBA byte quadruples; the function bins
each RGB channel into 16 buckets, builds one flat 4096-cell histogram per
frame, normalizes by the FIRST image's pixel count, and clamps half the
chi-square distance to at most 1.  Byte data is modelled as `List ℕ` and the
arithmetic as exact rationals. -/

/-- Number of histogram buckets per channel (`const bins = 16`). -/
def bins : ℕ := 16

/-- Channel value to bucket: `Math.floor((v / 255) * (bins - 1))`. -/
def binOf (v : ℕ) : ℕ := (⌊((v : ℚ) / 255) * ((bins : ℚ) - 1)⌋).toNat

/-- Flat histogram index of the pixel whose RGBA quadruple starts at byte
offset `i` (`r * bins² + g * bins + b`, with `?? 0` reads past the end). -/
def pixelBinIndex (data : List ℕ) (i : ℕ) : ℕ :=
  let r := binOf (data.getD i 0)
  let g := binOf (data.getD (i + 1) 0)
  let b := binOf (data.getD (i + 2) 0)
  r * bins * bins + g * bins + b

/-- Histogram increment guarded by `hist[index] !== undefined`, i.e. by the
index being within the 4096-cell array. -/
def bumpHist (hist : List ℕ) (idx : ℕ) : List ℕ :=
  if idx < hist.length then hist.set idx (hist.getD idx 0 + 1) else hist

/-- Byte offsets visited by `for (let i = 0; i < data1.length; i += 4)`. -/
def chunkStarts (len : ℕ) : List ℕ := (List.range ((len + 3) / 4)).map (· * 4)

/-- The histogram-building loop: both histograms are filled in one pass over
the byte offsets of the first image's data. -/
def buildHistograms (data1 data2 : List ℕ) : List ℕ × List ℕ :=
  (chunkStarts data1.length).foldl
    (fun h i => (bumpHist h.1 (pixelBinIndex data1 i), bumpHist h.2 (pixelBinIndex data2 i)))
    (List.replicate (bins * bins * bins) 0, List.replicate (bins * bins * bins) 0)

/-- Histogram normalization (`count / totalPixels`). -/
def normalizeHist (hist : List ℕ) (totalPixels : ℚ) : List ℚ :=
  hist.map fun c : ℕ => (c : ℚ) / totalPixels

/-- Body of the chi-square accumulation loop: bins with zero total are
skipped. -/
def chiSquareStep (acc : ℚ) (p : ℚ × ℚ) : ℚ :=
  if 0 < p.1 + p.2 then acc + (p.1 - p.2) ^ 2 / (p.1 + p.2) else acc

/-- The chi-square accumulation loop. -/
def chiSquareSum (h1 h2 : List ℚ) : ℚ :=
  (h1.zip h2).foldl chiSquareStep 0

/-- Decoded downsized frame data (mirrors the DOM `ImageData`: RGBA bytes plus
dimensions). -/
structure ImageData where
  width : ℕ
  height : ℕ
  data : List ℕ
deriving DecidableEq

/-- Embeds `calculateHistogramDifference` of `src/app/utils/video-analysis.ts`:
both histograms are normalized by the FIRST image's `width * height`, the
chi-square distance is accumulated over bins with nonzero total, and
`distance / 2` is clamped from above by 1 (`Math.min`). -/
def calculateHistogramDifference (imageData1 imageData2 : ImageData) : ℚ :=
  let hs := buildHistograms imageData1.data imageData2.data
  let totalPixels : ℚ := (imageData1.width : ℚ) * (imageData1.height : ℚ)
  let hist1 := normalizeHist hs.1 totalPixels
  let hist2 := normalizeHist hs.2 totalPixels
  min (chiSquareSum hist1 hist2 / 2) 1

/-- One-pixel black frame (C8 counterexample, first frame). -/
def c8FrameA : ImageData := ⟨1, 1, [0, 0, 0, 0]⟩

/-- Two-pixel black-then-white frame (C8 counterexample, second frame). -/
def c8FrameB : ImageData := ⟨2, 1, [0, 0, 0, 0, 255, 255, 255, 0]⟩

/-- Equal-sized frames for the C8 witness. -/
def c8FrameC : ImageData := ⟨1, 1, [10, 20, 30, 40]⟩

/-- Equal-sized frames for the C8 witness. -/
def c8FrameD : ImageData := ⟨1, 1, [50, 60, 70, 80]⟩

/-! ## Shot detector state machine

`createVideoFrameSceneDetector` from `src/app/utils/video-analysis.ts`.  The
closure state (`previousFrameData`, `frameIndex`, `lastProcessedTime`,
`isFirstFrame`, `sceneChanges`) becomes an explicit `DetectorState`; the
external asynchronous effects performed on a boundary (blob-URL creation,
thumbnail save — which may fail, leaving the field absent — and the optional
embedding extraction) are modelled as opaque per-call inputs
(`ExternalOutcomes`); the canvas downsizing step
(`extractFrameDataFromVideoFrame`) is an external collaborator, so
`processFrame` consumes the already-downsized `ImageData`. -/

/-- Analysis options (mirrors `AnalysisOptions` of
`src/shared/types/index.d.ts`). -/
structure AnalysisOptions where
  threshold : ℚ
  scaledSize : ℕ
  enableFeatureExtraction : Option Bool := none

/-- Results of the external asynchronous calls made during one
`processFrame` call. -/
structure ExternalOutcomes where
  frameImageUrl : String
  thumbnailFileName : Option String := none
  imageFeatures : Option (List ℚ) := none

/-- Return value of `processFrame`. -/
structure ProcessFrameResult where
  isSceneChange : Bool
  frameImageUrl : Option String := none
  thumbnailFileName : Option String := none
deriving DecidableEq

/-- The detector closure's mutable state. -/
structure DetectorState where
  previousFrameData : Option ImageData := none
  frameIndex : ℕ := 0
  lastProcessedTime : ℚ := -1
  isFirstFrame : Bool := true
  sceneChanges : List (SceneChangePoint ℚ) := []

/-- State of a freshly created detector. -/
def initialDetectorState : DetectorState := {}

/-- Embeds the detector's `reset()`. -/
def resetDetector (_s : DetectorState) : DetectorState := initialDetectorState

/-- Embeds `processFrame`: on the first frame, always emit a boundary with
score 0; afterwards, compare with the previous frame's data and emit a
boundary (score = difference) exactly when `difference > options.threshold`;
in all cases the current frame's data becomes the previous frame and the frame
index advances. -/
def processFrame (options : AnalysisOptions) (s : DetectorState) (currentFrameData : ImageData)
    (timestamp : ℚ) (ext : ExternalOutcomes) : ProcessFrameResult × DetectorState :=
  if s.isFirstFrame then
    ({ isSceneChange := true, frameImageUrl := some ext.frameImageUrl,
       thumbnailFileName := ext.thumbnailFileName },
     { previousFrameData := some currentFrameData
       frameIndex := s.frameIndex + 1
       lastProcessedTime := timestamp
       isFirstFrame := false
       sceneChanges := s.sceneChanges ++
         [{ timestamp := timestamp, score := 0, frameIndex := s.frameIndex,
            frameImageUrl := some ext.frameImageUrl,
            thumbnailFileName := ext.thumbnailFileName,
            imageFeatures := ext.imageFeatures }] })
  else
    match s.previousFrameData with
    | some previousFrameData =>
      let difference := calculateHistogramDifference previousFrameData currentFrameData
      if options.threshold < difference then
        ({ isSceneChange := true, frameImageUrl := some ext.frameImageUrl,
           thumbnailFileName := ext.thumbnailFileName },
         { previousFrameData := some currentFrameData
           frameIndex := s.frameIndex + 1
           lastProcessedTime := timestamp
           isFirstFrame := s.isFirstFrame
           sceneChanges := s.sceneChanges ++
             [{ timestamp := timestamp, score := difference, frameIndex := s.frameIndex,
                frameImageUrl := some ext.frameImageUrl,
                thumbnailFileName := ext.thumbnailFileName,
                imageFeatures := ext.imageFeatures }] })
      else
        ({ isSceneChange := false },
         { previousFrameData := some currentFrameData
           frameIndex := s.frameIndex + 1
           lastProcessedTime := timestamp
           isFirstFrame := s.isFirstFrame
           sceneChanges := s.sceneChanges })
    | none =>
      ({ isSceneChange := false },
       { previousFrameData := some currentFrameData
         frameIndex := s.frameIndex + 1
         lastProcessedTime := timestamp
         isFirstFrame := s.isFirstFrame
         sceneChanges := s.sceneChanges })

/-- One frame of an input stream: downsized pixel data, timestamp, and the
outcomes of the external effects for that call. -/
structure FrameInput where
  frameData : ImageData
  timestamp : ℚ
  ext : ExternalOutcomes

/-- Feeding a whole frame stream to a freshly created detector. -/
def runDetector (options : AnalysisOptions) (stream : List FrameInput) : DetectorState :=
  stream.foldl (fun s inp => (processFrame options s inp.frameData inp.timestamp inp.ext).2)
    initialDetectorState

/-- Embeds `getSceneChanges` (the source returns a defensive copy `[...arr]`,
which is the identity on the value). -/
def getSceneChanges (s : DetectorState) : List (SceneChangePoint ℚ) := s.sceneChanges

/-- Concrete detector options for the C5/C6 witnesses. -/
def demoOptions : AnalysisOptions := { threshold := 3/10, scaledSize := 128 }

/-- Concrete external outcomes for the C5/C6 witnesses. -/
def demoExt : ExternalOutcomes := { frameImageUrl := "blob:frame" }

/-- Concrete streaming-state detector (one frame already processed) for the
C5 witness. -/
def c5State : DetectorState :=
  { previousFrameData := some c8FrameA
    frameIndex := 1
    lastProcessedTime := 0
    isFirstFrame := false
    sceneChanges := [{ timestamp := 0, score := 0, frameIndex := 0,
                       frameImageUrl := some "blob:frame" }] }

/-- Concrete one-frame stream for the C6 witness. -/
def c6Stream : List FrameInput := [{ frameData := c8FrameA, timestamp := 0, ext := demoExt }]

/-! ## Vector normalization and cosine similarity

`CLIPTextExtractor.normalizeFeatures` / `calculateTextImageSimilarity` from
`src/app/utils/text-feature-extractor.ts`, and the character-identical
`CLIPFeatureExtractor.normalizeFeatures` from
`src/app/utils/image-feature-extractor.ts`.  These compute square roots, so
scalars are modelled as `ℝ` (the definitions are `noncomputable` only because
`Real.sqrt` is; every branch is still fully determined). -/

/-- Sum of squares (`reduce((sum, val) => sum + val * val, 0)`). -/
def normSq (v : List ℝ) : ℝ := (v.map fun x => x * x).sum

/-- Euclidean magnitude (`Math.sqrt` of the sum of squares). -/
noncomputable def magnitude (v : List ℝ) : ℝ := Real.sqrt (normSq v)

/-- Embeds `CLIPTextExtractor.normalizeFeatures`: when the norm is zero,
return a zero vector of the same length; otherwise divide every component by
the norm. -/
noncomputable def CLIPTextExtractor.normalizeFeatures (features : List ℝ) : List ℝ :=
  let norm := magnitude features
  if norm = 0 then List.replicate features.length 0
  else features.map fun value => value / norm

/-- Embeds `CLIPFeatureExtractor.normalizeFeatures` of
`src/app/utils/image-feature-extractor.ts`, whose body is character-identical
to the text extractor's. -/
noncomputable def CLIPFeatureExtractor.normalizeFeatures (features : List ℝ) : List ℝ :=
  let norm := magnitude features
  if norm = 0 then List.replicate features.length 0
  else features.map fun value => value / norm

/-- The dot-product loop of `calculateTextImageSimilarity`: it runs over the
indices of the first vector, reading the second with `?? 0`, which sums the
same terms as `zipWith (*)`. -/
def dotProduct (a b : List ℝ) : ℝ := (List.zipWith (fun x y => x * y) a b).sum

/-- Message of the error thrown on mismatched vector lengths (the source
throws `new Error` with a fixed Chinese message; only its identity matters
here). -/
def mismatchErrorMessage : String := "text and image feature vector lengths do not match"

/-- Embeds `CLIPTextExtractor.calculateTextImageSimilarity`: throw on length
mismatch; L2-normalize either input whose magnitude is farther than 0.01 from
1; take the dot product; if its absolute value exceeds 1.1, recompute it from
both inputs force-normalized; clamp to `[-1, 1]`; rescale to `[0, 1]` via
`(d + 1) / 2`. -/
noncomputable def calculateTextImageSimilarity (textFeatures imageFeatures : List ℝ) :
    Except String ℝ :=
  if textFeatures.length ≠ imageFeatures.length then .error mismatchErrorMessage
  else
    let textMagnitude := magnitude textFeatures
    let imageMagnitude := magnitude imageFeatures
    let normalizedTextFeatures :=
      if 1/100 < |textMagnitude - 1| then CLIPTextExtractor.normalizeFeatures textFeatures
      else textFeatures
    let normalizedImageFeatures :=
      if 1/100 < |imageMagnitude - 1| then CLIPTextExtractor.normalizeFeatures imageFeatures
      else imageFeatures
    let dp := dotProduct normalizedTextFeatures normalizedImageFeatures
    let dp2 :=
      if 11/10 < |dp| then
        dotProduct (CLIPTextExtractor.normalizeFeatures textFeatures)
          (CLIPTextExtractor.normalizeFeatures imageFeatures)
      else dp
    let clamped := max (-1) (min 1 dp2)
    .ok ((clamped + 1) / 2)

/-! ## Text search engine

`TextSearchService.searchByText` from `src/app/utils/text-search-service.ts`.
The query text's feature vector is an input of the model (extraction by the
neural encoder is external, and the empty-text early return happens before
extraction), so the model covers the filtering, scoring, ordering and
truncation logic.  The JS `Map` iterates in insertion order and is modelled as
an association list; JS `Array.prototype.sort` is guaranteed stable and is
modelled by a stable insertion sort on the accumulated results; the `queryText`
echo field of the result records is omitted, being a verbatim copy of the
input. -/

/-- Optional query parameters of `TextSearchQuery` (defaults are applied inside
`searchByText`). -/
structure TextSearchQueryParams where
  limit : Option ℕ := none
  minSimilarity : Option ℝ := none
  videoNames : Option (List String) := none

/-- One search result (mirrors `TextSearchResult` minus the `queryText`
echo). -/
structure TextSearchResult where
  videoName : String
  scene : SceneChangePoint ℝ
  similarity : ℝ

/-- Stable descending insertion: a later element goes after every
already-placed element of greater-or-equal similarity.  This is the unique
behaviour of the source's stable `sort((a, b) => b.similarity - a.similarity)`. -/
noncomputable def insertResultDesc (x : TextSearchResult) :
    List TextSearchResult → List TextSearchResult
  | [] => [x]
  | y :: ys => if x.similarity ≤ y.similarity then y :: insertResultDesc x ys else x :: y :: ys

/-- Stable descending sort by similarity (elements inserted in encounter
order). -/
noncomputable def sortResultsDesc (results : List TextSearchResult) : List TextSearchResult :=
  results.foldl (fun acc x => insertResultDesc x acc) []

/-- Embeds `TextSearchService.searchByText`: destructure the query with
defaults `limit = 10`, `minSimilarity = 0.2`, `videoNames = []`; walk the map
in insertion order, skipping out-of-scope videos and scenes without an
embedding; compute the similarity, silently skipping scenes for which it
throws (the per-scene `try/catch` only logs a warning); keep scenes with
`similarity >= minSimilarity`; sort descending (stable) and truncate. -/
noncomputable def searchByText (queryFeatures : List ℝ) (query : TextSearchQueryParams)
    (allScenes : List (String × List (SceneChangePoint ℝ))) : List TextSearchResult :=
  let limit := query.limit.getD 10
  let minSimilarity := query.minSimilarity.getD (2/10)
  let videoNames := query.videoNames.getD []
  let results := allScenes.foldl
    (fun acc entry =>
      if 0 < videoNames.length ∧ entry.1 ∉ videoNames then acc
      else
        entry.2.foldl
          (fun acc2 scene =>
            match scene.imageFeatures with
            | none => acc2
            | some features =>
              match calculateTextImageSimilarity queryFeatures features with
              | .ok similarity =>
                if minSimilarity ≤ similarity then
                  acc2 ++ [{ videoName := entry.1, scene := scene, similarity := similarity }]
                else acc2
              | .error _ => acc2)
          acc)
    []
  (sortResultsDesc results).take limit

/-- Descending comparison on results (`a` may come before `b`): the order the
spec asks for. -/
def similarityGE (a b : TextSearchResult) : Prop := b.similarity ≤ a.similarity

/-- The results with one given similarity value, in order — used to state
stability: a stable sort preserves each such sublist verbatim. -/
noncomputable def keyFilter (v : ℝ) (results : List TextSearchResult) : List TextSearchResult :=
  results.filter fun r => r.similarity = v

/-- What one scene of one video contributes to a search, written from the
claim's words: a result exactly when the scene carries an embedding and its
similarity to the query is defined and at least `minSimilarity`. -/
noncomputable def resultOfScene (queryFeatures : List ℝ) (minSimilarity : ℝ)
    (videoName : String) (scene : SceneChangePoint ℝ) : Option TextSearchResult :=
  match scene.imageFeatures with
  | none => none
  | some features =>
    match calculateTextImageSimilarity queryFeatures features with
    | .ok similarity =>
      if minSimilarity ≤ similarity then
        some { videoName := videoName, scene := scene, similarity := similarity }
      else none
    | .error _ => none

/-- The scenes that the spec says a search must return, written from the
claim's words: in-scope scenes carrying an embedding whose similarity to the
query is defined and at least `minSimilarity`, in map-then-list order. -/
noncomputable def eligibleResults (queryFeatures : List ℝ) (minSimilarity : ℝ)
    (videoNames : List String) (allScenes : List (String × List (SceneChangePoint ℝ))) :
    List TextSearchResult :=
  (allScenes.filter fun entry => !(0 < videoNames.length ∧ entry.1 ∉ videoNames : Bool)).flatMap
    fun entry => entry.2.filterMap (resultOfScene queryFeatures minSimilarity entry.1)

/-- Query feature vector of the C2/C3/C4 concrete examples: the unit vector
`[1, 0]`. -/
def exampleQueryFeatures : List ℝ := [1, 0]

/-- Scene with similarity 0.9 to `exampleQueryFeatures`. -/
def c2Scene1 : SceneChangePoint ℝ :=
  { timestamp := 0, score := 0, frameIndex := 0, imageFeatures := some [0.8, 0.6] }

/-- Scene with similarity 0.5 to `exampleQueryFeatures`. -/
def c2Scene2 : SceneChangePoint ℝ :=
  { timestamp := 1, score := 1, frameIndex := 30, imageFeatures := some [0, 1] }

/-- Scene with similarity 0.3 to `exampleQueryFeatures` (magnitude
`√0.9881 ≈ 0.994`, within the 0.01 tolerance). -/
def c2Scene3 : SceneChangePoint ℝ :=
  { timestamp := 2, score := 1, frameIndex := 60, imageFeatures := some [-0.4, 0.91] }

/-- Scene with similarity 0.1 to `exampleQueryFeatures`. -/
def c2Scene4 : SceneChangePoint ℝ :=
  { timestamp := 3, score := 1, frameIndex := 90, imageFeatures := some [-0.8, 0.6] }

/-- Scene with similarity 0.05 to `exampleQueryFeatures` (magnitude
`√1.0125 ≈ 1.006`, within the 0.01 tolerance). -/
def c2Scene5 : SceneChangePoint ℝ :=
  { timestamp := 4, score := 1, frameIndex := 120, imageFeatures := some [-0.9, 0.45] }

/-- Shot map with five shots of similarities 0.9, 0.5, 0.3, 0.1, 0.05. -/
def c2ScenesMap : List (String × List (SceneChangePoint ℝ)) :=
  [("video1", [c2Scene1, c2Scene2, c2Scene3, c2Scene4, c2Scene5])]

/-- Search result of `c2Scene1` (similarity 0.9). -/
noncomputable def c2Result1 : TextSearchResult :=
  { videoName := "video1", scene := c2Scene1, similarity := 9/10 }

/-- Search result of `c2Scene2` (similarity 0.5). -/
noncomputable def c2Result2 : TextSearchResult :=
  { videoName := "video1", scene := c2Scene2, similarity := 5/10 }

/-- Search result of `c2Scene3` (similarity 0.3). -/
noncomputable def c2Result3 : TextSearchResult :=
  { videoName := "video1", scene := c2Scene3, similarity := 3/10 }

/-- Scene with similarity 0.17 to `exampleQueryFeatures` (magnitude
`√0.9981 ≈ 0.999`): kept by a 0.15 threshold, dropped by the code's actual
0.2 default. -/
def c3Scene : SceneChangePoint ℝ :=
  { timestamp := 0, score := 0, frameIndex := 0, imageFeatures := some [-0.66, 0.75] }

/-- Shot map for the C3 counterexample. -/
def c3ScenesMap : List (String × List (SceneChangePoint ℝ)) := [("video1", [c3Scene])]

/-- Scene whose stored embedding has length 1, mismatching the length-2 query
vector. -/
def c4MismatchedScene : SceneChangePoint ℝ :=
  { timestamp := 0, score := 0, frameIndex := 0, imageFeatures := some [1] }

/-- Shot map containing only a dimensionality-mismatched shot. -/
def c4ScenesMap : List (String × List (SceneChangePoint ℝ)) := [("video1", [c4MismatchedScene])]

/-! ## Theorems: serialization round trip (C1) -/

lemma roundtrip_point {α : Type} (s : SceneChangePoint α) :
    deserializeSceneChangePoint (serializeSceneChangePoint s) = clearFrameImageUrl s := by
  cases s with
  | mk timestamp score frameIndex formattedTime thumbnailFileName duration formattedDuration
      frameImageUrl imageFeatures =>
    cases imageFeatures <;> rfl

/-- Claim C1 (amended).  Deserializing the serialization of a shot list yields
the original list with each shot's transient `frameImageUrl` cleared; all other
fields — `timestamp`, `score`, `frameIndex`, `formattedTime`,
`thumbnailFileName`, `duration`, `formattedDuration` and the `imageFeatures`
embedding vector (element-wise) — are preserved exactly, for shots with and
without embeddings.  In particular the round trip is the identity on every
shot list in which no shot carries a `frameImageUrl`. -/
theorem C1_roundtrip_amended {α : Type} (scenes : List (SceneChangePoint α)) :
    deserializeScenes (serializeScenes scenes) = scenes.map clearFrameImageUrl ∧
      ((∀ s ∈ scenes, s.frameImageUrl = none) →
        deserializeScenes (serializeScenes scenes) = scenes) := by
  have hmap : deserializeScenes (serializeScenes scenes) = scenes.map clearFrameImageUrl := by
    unfold deserializeScenes serializeScenes
    rw [List.map_map]
    exact List.map_congr_left fun s _ => roundtrip_point s
  refine ⟨hmap, fun hnone => ?_⟩
  rw [hmap]
  have hcongr : scenes.map clearFrameImageUrl = scenes.map id :=
    List.map_congr_left fun s hs => by
      have := hnone s hs
      cases s
      simp_all [clearFrameImageUrl]
  simpa using hcongr

/-- Witness for C1: the round trip is the identity on `c1DemoScenes` (a list
with one embedded and one non-embedded shot). -/
theorem C1_witness :
    (∀ s ∈ c1DemoScenes, s.frameImageUrl = none) ∧
      deserializeScenes (serializeScenes c1DemoScenes) = c1DemoScenes :=
  ⟨by decide, (C1_roundtrip_amended c1DemoScenes).2 (by decide)⟩

/-- Counterexample for C1 as stated: for a shot with a `frameImageUrl`, the
round trip does not return the original list — the blob URL is dropped. -/
theorem C1_counterexample :
    deserializeScenes (serializeScenes [c1CexScene]) ≠ [c1CexScene] := by
  decide

/-! ## Theorems: histogram differencer (C7, C8) -/

lemma chiSquareStep_nonneg {acc : ℚ} (p : ℚ × ℚ) (h : 0 ≤ acc) : 0 ≤ chiSquareStep acc p := by
  unfold chiSquareStep
  split
  · have hsq : (0 : ℚ) ≤ (p.1 - p.2) ^ 2 := sq_nonneg _
    have hpos : (0 : ℚ) < p.1 + p.2 := by assumption
    positivity
  · exact h

lemma chiSquareFold_nonneg (l : List (ℚ × ℚ)) :
    ∀ acc : ℚ, 0 ≤ acc → 0 ≤ l.foldl chiSquareStep acc := by
  induction l with
  | nil => intro acc h; simpa using h
  | cons p rest ih =>
    intro acc h
    simpa using ih _ (chiSquareStep_nonneg p h)

lemma chiSquareSum_nonneg (h1 h2 : List ℚ) : 0 ≤ chiSquareSum h1 h2 :=
  chiSquareFold_nonneg _ 0 le_rfl

lemma chiSquareFold_self (l : List ℚ) :
    ∀ acc : ℚ, (l.zip l).foldl chiSquareStep acc = acc := by
  induction l with
  | nil => intro acc; rfl
  | cons x rest ih =>
    intro acc
    have hstep : chiSquareStep acc (x, x) = acc := by
      unfold chiSquareStep
      split <;> simp
    simpa [hstep] using ih acc

lemma chiSquareSum_self (l : List ℚ) : chiSquareSum l l = 0 :=
  chiSquareFold_self l 0

lemma buildHistograms_self (d : List ℕ) :
    (buildHistograms d d).1 = (buildHistograms d d).2 := by
  unfold buildHistograms
  generalize chunkStarts d.length = offsets
  have aux : ∀ (l : List ℕ) (p : List ℕ × List ℕ), p.1 = p.2 →
      (l.foldl (fun h i => (bumpHist h.1 (pixelBinIndex d i), bumpHist h.2 (pixelBinIndex d i)))
        p).1 =
      (l.foldl (fun h i => (bumpHist h.1 (pixelBinIndex d i), bumpHist h.2 (pixelBinIndex d i)))
        p).2 := by
    intro l
    induction l with
    | nil => intro p hp; simpa using hp
    | cons i rest ih =>
      intro p hp
      exact ih _ (by simp [hp])
  exact aux _ _ rfl

/-- Claim C7.  The histogram difference is always in `[0, 1]`, is a pure
deterministic function of the pixel data, and vanishes on identical frames. -/
theorem C7_range_determinism_selfzero (A B : ImageData) :
    (0 ≤ calculateHistogramDifference A B ∧ calculateHistogramDifference A B ≤ 1) ∧
      calculateHistogramDifference A B = calculateHistogramDifference A B ∧
      calculateHistogramDifference A A = 0 := by
  refine ⟨⟨?_, ?_⟩, rfl, ?_⟩
  · unfold calculateHistogramDifference
    have h := chiSquareSum_nonneg
      (normalizeHist (buildHistograms A.data B.data).1 ((A.width : ℚ) * (A.height : ℚ)))
      (normalizeHist (buildHistograms A.data B.data).2 ((A.width : ℚ) * (A.height : ℚ)))
    exact le_min (by linarith) (by norm_num)
  · exact min_le_right _ _
  · simp only [calculateHistogramDifference]
    rw [buildHistograms_self, chiSquareSum_self]
    norm_num [min_eq_left]

lemma chiSquareStep_comm (acc : ℚ) (p : ℚ × ℚ) :
    chiSquareStep acc (p.2, p.1) = chiSquareStep acc p := by
  unfold chiSquareStep
  have h1 : p.2 + p.1 = p.1 + p.2 := by ring
  have h2 : (p.2 - p.1) ^ 2 = (p.1 - p.2) ^ 2 := by ring
  simp [h1, h2]

lemma chiSquareFold_swap (l : List (ℚ × ℚ)) :
    ∀ acc : ℚ, (l.map Prod.swap).foldl chiSquareStep acc = l.foldl chiSquareStep acc := by
  induction l with
  | nil => intro acc; rfl
  | cons p rest ih =>
    intro acc
    have : chiSquareStep acc p.swap = chiSquareStep acc p := chiSquareStep_comm acc p
    simpa [this] using ih _

lemma chiSquareSum_comm (h1 h2 : List ℚ) : chiSquareSum h1 h2 = chiSquareSum h2 h1 := by
  unfold chiSquareSum
  rw [← List.zip_swap h1 h2]
  exact (chiSquareFold_swap _ 0).symm

lemma buildHistograms_swap (d1 d2 : List ℕ) (hlen : d1.length = d2.length) :
    buildHistograms d2 d1 = ((buildHistograms d1 d2).2, (buildHistograms d1 d2).1) := by
  unfold buildHistograms
  rw [← hlen]
  generalize chunkStarts d1.length = offsets
  have aux : ∀ (l : List ℕ) (p q : List ℕ),
      l.foldl (fun h i => (bumpHist h.1 (pixelBinIndex d2 i), bumpHist h.2 (pixelBinIndex d1 i)))
        (p, q) =
      ((l.foldl
          (fun h i => (bumpHist h.1 (pixelBinIndex d1 i), bumpHist h.2 (pixelBinIndex d2 i)))
          (q, p)).2,
       (l.foldl
          (fun h i => (bumpHist h.1 (pixelBinIndex d1 i), bumpHist h.2 (pixelBinIndex d2 i)))
          (q, p)).1) := by
    intro l
    induction l with
    | nil => intro p q; rfl
    | cons i rest ih =>
      intro p q
      simpa using ih (bumpHist p (pixelBinIndex d2 i)) (bumpHist q (pixelBinIndex d1 i))
  exact aux _ _ _

/-- Claim C8 (amended).  The histogram difference is symmetric whenever the two
frames have byte buffers of equal length and equal pixel counts (in particular,
whenever they have equal dimensions); for frames of different sizes the
function is not symmetric, because the pixel loop runs over the first frame's
buffer and both histograms are normalized by the first frame's pixel count. -/
theorem C8_symm_amended (A B : ImageData) (hlen : A.data.length = B.data.length)
    (hpix : A.width * A.height = B.width * B.height) :
    calculateHistogramDifference A B = calculateHistogramDifference B A := by
  simp only [calculateHistogramDifference]
  rw [buildHistograms_swap A.data B.data hlen]
  have htot : (B.width : ℚ) * (B.height : ℚ) = (A.width : ℚ) * (A.height : ℚ) := by
    have := hpix
    push_cast [← Nat.cast_mul]
    exact_mod_cast this.symm
  rw [htot]
  rw [chiSquareSum_comm]

/-- Witness for C8: two concrete equal-sized frames compare symmetrically. -/
theorem C8_witness :
    c8FrameC.data.length = c8FrameD.data.length ∧
      c8FrameC.width * c8FrameC.height = c8FrameD.width * c8FrameD.height ∧
      calculateHistogramDifference c8FrameC c8FrameD =
        calculateHistogramDifference c8FrameD c8FrameC :=
  ⟨by decide, by decide, C8_symm_amended c8FrameC c8FrameD (by decide) (by decide)⟩

/-! ## Theorems: shot detector state machine (C5, C6) -/

/-- Claim C5.  For a detector in the streaming state (first frame already
consumed, previous frame data present), `processFrame` emits a new boundary
exactly when the histogram difference strictly exceeds the configured
threshold; the emitted boundary's score is that difference; when
`threshold ≥ difference` nothing is appended; and in both cases the current
frame's data becomes the stored previous frame. -/
theorem C5_streaming_threshold (options : AnalysisOptions) (s : DetectorState)
    (prev cur : ImageData) (t : ℚ) (ext : ExternalOutcomes)
    (hstream : s.isFirstFrame = false) (hprev : s.previousFrameData = some prev) :
    ((processFrame options s cur t ext).1.isSceneChange = true ↔
        options.threshold < calculateHistogramDifference prev cur) ∧
      (options.threshold < calculateHistogramDifference prev cur →
        (processFrame options s cur t ext).2.sceneChanges =
          s.sceneChanges ++
            [{ timestamp := t, score := calculateHistogramDifference prev cur,
               frameIndex := s.frameIndex,
               frameImageUrl := some ext.frameImageUrl,
               thumbnailFileName := ext.thumbnailFileName,
               imageFeatures := ext.imageFeatures }]) ∧
      (calculateHistogramDifference prev cur ≤ options.threshold →
        (processFrame options s cur t ext).2.sceneChanges = s.sceneChanges) ∧
      (processFrame options s cur t ext).2.previousFrameData = some cur := by
  unfold processFrame
  rw [hstream, hprev]
  by_cases hthr : options.threshold < calculateHistogramDifference prev cur
  · refine ⟨by simp [hthr], fun _ => by simp [hthr], fun hle => absurd hthr (not_lt.mpr hle), ?_⟩
    simp [hthr]
  · refine ⟨by simp [hthr], fun hl => absurd hl hthr, fun _ => by simp [hthr], ?_⟩
    simp [hthr]

/-- Witness for C5, instantiated with a concrete streaming-state detector and
concrete frames. -/
theorem C5_witness :
    ((processFrame demoOptions c5State c8FrameB 1 demoExt).1.isSceneChange = true ↔
        demoOptions.threshold < calculateHistogramDifference c8FrameA c8FrameB) ∧
      (demoOptions.threshold < calculateHistogramDifference c8FrameA c8FrameB →
        (processFrame demoOptions c5State c8FrameB 1 demoExt).2.sceneChanges =
          c5State.sceneChanges ++
            [{ timestamp := 1, score := calculateHistogramDifference c8FrameA c8FrameB,
               frameIndex := c5State.frameIndex,
               frameImageUrl := some demoExt.frameImageUrl,
               thumbnailFileName := demoExt.thumbnailFileName,
               imageFeatures := demoExt.imageFeatures }]) ∧
      (calculateHistogramDifference c8FrameA c8FrameB ≤ demoOptions.threshold →
        (processFrame demoOptions c5State c8FrameB 1 demoExt).2.sceneChanges =
          c5State.sceneChanges) ∧
      (processFrame demoOptions c5State c8FrameB 1 demoExt).2.previousFrameData =
        some c8FrameB :=
  C5_streaming_threshold demoOptions c5State c8FrameA c8FrameB 1 demoExt rfl rfl

lemma processFrame_scenes_extend (options : AnalysisOptions) (s : DetectorState)
    (cur : ImageData) (t : ℚ) (ext : ExternalOutcomes) :
    ∃ tail, (processFrame options s cur t ext).2.sceneChanges = s.sceneChanges ++ tail := by
  unfold processFrame
  by_cases hf : s.isFirstFrame = true
  · rw [if_pos hf]
    exact ⟨_, rfl⟩
  · rw [if_neg hf]
    cases hprev : s.previousFrameData with
    | none => exact ⟨[], by simp⟩
    | some prev =>
      by_cases hthr : options.threshold < calculateHistogramDifference prev cur
      · simp only [hthr, if_true, if_pos]
        exact ⟨_, rfl⟩
      · simp only [hthr, if_neg, if_false]
        exact ⟨[], by simp⟩

lemma processFrame_head_preserved (options : AnalysisOptions) (s : DetectorState)
    (cur : ImageData) (t : ℚ) (ext : ExternalOutcomes) (x : SceneChangePoint ℚ)
    (l : List (SceneChangePoint ℚ)) (h : s.sceneChanges = x :: l) :
    ∃ l2, (processFrame options s cur t ext).2.sceneChanges = x :: l2 := by
  obtain ⟨tail, htail⟩ := processFrame_scenes_extend options s cur t ext
  exact ⟨l ++ tail, by rw [htail, h]; simp⟩

lemma runDetectorAux_head_preserved (options : AnalysisOptions) (rest : List FrameInput) :
    ∀ (s : DetectorState) (x : SceneChangePoint ℚ) (l : List (SceneChangePoint ℚ)),
      s.sceneChanges = x :: l →
      ∃ l2, (rest.foldl
          (fun s inp => (processFrame options s inp.frameData inp.timestamp inp.ext).2)
          s).sceneChanges = x :: l2 := by
  induction rest with
  | nil => intro s x l h; exact ⟨l, by simpa using h⟩
  | cons inp rest ih =>
    intro s x l h
    obtain ⟨l2, h2⟩ :=
      processFrame_head_preserved options s inp.frameData inp.timestamp inp.ext x l h
    simpa using ih _ x l2 h2

/-- Claim C6.  For every non-empty frame stream fed to a freshly created
detector, the accumulated shot list is non-empty and its first element has
score 0 and frame index 0; and `reset()` returns any detector to the fresh
initial state, so the same holds after a reset. -/
theorem C6_first_boundary (options : AnalysisOptions) (stream : List FrameInput)
    (hne : stream ≠ []) :
    (∃ first rest, getSceneChanges (runDetector options stream) = first :: rest ∧
        first.score = 0 ∧ first.frameIndex = 0) ∧
      ∀ s : DetectorState, resetDetector s = initialDetectorState := by
  refine ⟨?_, fun _ => rfl⟩
  obtain ⟨inp, rest, rfl⟩ := List.exists_cons_of_ne_nil hne
  unfold runDetector getSceneChanges
  rw [List.foldl_cons]
  have hfirst : (processFrame options initialDetectorState inp.frameData inp.timestamp
      inp.ext).2.sceneChanges =
      [{ timestamp := inp.timestamp, score := 0, frameIndex := 0,
         frameImageUrl := some inp.ext.frameImageUrl,
         thumbnailFileName := inp.ext.thumbnailFileName,
         imageFeatures := inp.ext.imageFeatures }] := by
    rfl
  obtain ⟨l2, h2⟩ := runDetectorAux_head_preserved options rest _ _ _ hfirst
  exact ⟨_, l2, h2, rfl, rfl⟩

/-- Witness for C6: a concrete one-frame stream yields a first boundary with
score 0 and frame index 0. -/
theorem C6_witness :
    (∃ first rest, getSceneChanges (runDetector demoOptions c6Stream) = first :: rest ∧
        first.score = 0 ∧ first.frameIndex = 0) ∧
      ∀ s : DetectorState, resetDetector s = initialDetectorState :=
  C6_first_boundary demoOptions c6Stream (by simp [c6Stream])

/-! ### Concrete evaluation of the differencer on the C8 counterexample frames

The kernel cannot evaluate rational arithmetic, so the two differences are
computed by structured rewriting: the `ℕ`-valued histograms are reduced to
`set`-on-`replicate` normal forms, and the 4096-bin chi-square loop collapses
because bins in which both histograms are zero are skipped. -/

lemma binOf_zero : binOf 0 = 0 := by norm_num [binOf, bins]

lemma binOf_255 : binOf 255 = 15 := by
  unfold binOf bins
  norm_num
  rfl

lemma pix_A0 : pixelBinIndex [0, 0, 0, 0] 0 = 0 := by
  unfold pixelBinIndex
  norm_num [binOf_zero]

lemma pix_A4 : pixelBinIndex [0, 0, 0, 0] 4 = 0 := by
  unfold pixelBinIndex
  norm_num [binOf_zero]

lemma pix_B0 : pixelBinIndex [0, 0, 0, 0, 255, 255, 255, 0] 0 = 0 := by
  unfold pixelBinIndex
  norm_num [binOf_zero]

lemma pix_B4 : pixelBinIndex [0, 0, 0, 0, 255, 255, 255, 0] 4 = 4095 := by
  unfold pixelBinIndex
  norm_num [binOf_255, bins]

lemma repl_succ_4096 : List.replicate 4096 (0 : ℕ) = 0 :: List.replicate 4095 0 := rfl

lemma getD_replicate {α : Type} (n i : ℕ) (a d : α) (h : i < n) :
    (List.replicate n a).getD i d = a := by
  induction n generalizing i with
  | zero => omega
  | succ m ih =>
    rw [List.replicate_succ]
    cases i with
    | zero => rfl
    | succ j => simpa using ih j (by omega)

lemma replicate_set_last {α : Type} (n : ℕ) (a x : α) :
    (List.replicate (n + 1) a).set n x = List.replicate n a ++ [x] := by
  induction n with
  | zero => rfl
  | succ m ih =>
    rw [List.replicate_succ, List.set_cons_succ, ih, List.replicate_succ]
    rfl

lemma bump_Z_zero : bumpHist (List.replicate 4096 0) 0 = 1 :: List.replicate 4095 0 := by
  unfold bumpHist
  rw [if_pos (by rw [List.length_replicate]; norm_num)]
  rw [repl_succ_4096]
  simp only [List.set_cons_zero, List.getD_cons_zero]

lemma bump_one_4095 : bumpHist (1 :: List.replicate 4095 0) 4095 =
    1 :: (List.replicate 4094 0 ++ [1]) := by
  unfold bumpHist
  rw [if_pos (by simp only [List.length_cons, List.length_replicate]; norm_num)]
  rw [List.set_cons_succ]
  rw [show (4095 : ℕ) = 4094 + 1 from rfl]
  rw [replicate_set_last]
  have h0 : (1 :: List.replicate 4095 0).getD 4095 0 = 0 := by
    rw [List.getD_cons_succ]
    exact getD_replicate 4095 4094 0 0 (by norm_num)
  rw [h0]

lemma bump_one_zero : bumpHist (1 :: List.replicate 4095 0) 0 =
    2 :: List.replicate 4095 0 := by
  unfold bumpHist
  rw [if_pos (by simp only [List.length_cons, List.length_replicate]; norm_num)]
  simp only [List.set_cons_zero, List.getD_cons_zero]

lemma hists_AB : buildHistograms [0, 0, 0, 0] [0, 0, 0, 0, 255, 255, 255, 0] =
    (1 :: List.replicate 4095 0, 1 :: List.replicate 4095 0) := by
  unfold buildHistograms
  have h1 : chunkStarts (List.length [0, 0, 0, 0]) = [0] := by decide
  rw [h1]
  simp only [List.foldl_cons, List.foldl_nil, pix_A0, pix_B0]
  rw [show bins * bins * bins = 4096 from rfl, bump_Z_zero]

lemma hists_BA : buildHistograms [0, 0, 0, 0, 255, 255, 255, 0] [0, 0, 0, 0] =
    (1 :: (List.replicate 4094 0 ++ [1]), 2 :: List.replicate 4095 0) := by
  unfold buildHistograms
  have h1 : chunkStarts (List.length [0, 0, 0, 0, 255, 255, 255, 0]) = [0, 4] := by decide
  rw [h1]
  simp only [List.foldl_cons, List.foldl_nil, pix_A0, pix_A4, pix_B0, pix_B4]
  rw [show bins * bins * bins = 4096 from rfl, bump_Z_zero]
  rw [bump_one_4095, bump_one_zero]

lemma diff_c8AB : calculateHistogramDifference c8FrameA c8FrameB = 0 := by
  simp only [calculateHistogramDifference, c8FrameA, c8FrameB]
  rw [hists_AB]
  rw [show ((((1 : ℕ)) : ℚ) * ((1 : ℕ) : ℚ)) = 1 by norm_num]
  rw [show chiSquareSum (normalizeHist (1 :: List.replicate 4095 0) 1)
      (normalizeHist (1 :: List.replicate 4095 0) 1) = 0 from chiSquareFold_self _ 0]
  norm_num

lemma normalized_BA_1 : normalizeHist (1 :: (List.replicate 4094 0 ++ [1])) 2 =
    (1/2 : ℚ) :: (List.replicate 4094 0 ++ [1/2]) := by
  unfold normalizeHist
  simp only [List.map_cons, List.map_append, List.map_replicate]
  norm_num

lemma normalized_BA_2 : normalizeHist (2 :: List.replicate 4095 0) 2 =
    (1 : ℚ) :: (List.replicate 4094 0 ++ [0]) := by
  unfold normalizeHist
  simp only [List.map_cons, List.map_replicate]
  rw [show (((0 : ℕ)) : ℚ) / 2 = (0 : ℚ) by norm_num]
  rw [show (4095 : ℕ) = 4094 + 1 from rfl, List.replicate_succ']
  norm_num

lemma diff_c8BA : calculateHistogramDifference c8FrameB c8FrameA = 1/3 := by
  simp only [calculateHistogramDifference, c8FrameA, c8FrameB]
  rw [hists_BA]
  rw [show ((((2 : ℕ)) : ℚ) * ((1 : ℕ) : ℚ)) = 2 by norm_num]
  rw [normalized_BA_1, normalized_BA_2]
  unfold chiSquareSum
  rw [List.zip_cons_cons]
  rw [List.zip_append (by simp only [List.length_replicate])]
  rw [List.foldl_cons, List.foldl_append]
  rw [show chiSquareStep 0 (1/2, 1) = 1/6 by
    unfold chiSquareStep; rw [if_pos (by norm_num)]; norm_num]
  rw [show ((List.replicate 4094 (0 : ℚ)).zip
      (List.replicate 4094 (0 : ℚ))).foldl chiSquareStep (1/6) = 1/6
      from chiSquareFold_self _ _]
  rw [show List.zip [(1/2 : ℚ)] [(0 : ℚ)] = [(1/2, (0 : ℚ))] from rfl]
  rw [show List.foldl chiSquareStep (1/6) [((1 : ℚ)/2, (0 : ℚ))] = 2/3 by
    rw [List.foldl_cons, List.foldl_nil]
    unfold chiSquareStep
    rw [if_pos (by norm_num)]
    norm_num]
  norm_num [min_eq_left]

/-- Counterexample for C8 as stated: for a one-pixel black frame and a
two-pixel black-then-white frame, the difference is 0 in one direction and
1/3 in the other, because the pixel loop and the normalization are driven by
the first argument only. -/
theorem C8_counterexample :
    calculateHistogramDifference c8FrameA c8FrameB ≠
      calculateHistogramDifference c8FrameB c8FrameA := by
  rw [diff_c8AB, diff_c8BA]
  norm_num

/-! ## Theorems: vector normalization and similarity kernel (C9, C10) -/

lemma normSq_nonneg (v : List ℝ) : 0 ≤ normSq v := by
  unfold normSq
  refine List.sum_nonneg ?_
  intro x hx
  obtain ⟨y, _, rfl⟩ := List.mem_map.mp hx
  exact mul_self_nonneg y

lemma normSq_cons (x : ℝ) (v : List ℝ) : normSq (x :: v) = x * x + normSq v := by
  simp [normSq]

lemma normSq_map_div (v : List ℝ) (n : ℝ) :
    normSq (v.map fun x => x / n) = normSq v / n ^ 2 := by
  induction v with
  | nil => simp [normSq]
  | cons x t ih =>
    rw [List.map_cons, normSq_cons, normSq_cons, ih]
    ring

lemma dotProduct_self (v : List ℝ) : dotProduct v v = normSq v := by
  induction v with
  | nil => rfl
  | cons x t ih =>
    rw [show dotProduct (x :: t) (x :: t) = x * x + dotProduct t t by simp [dotProduct]]
    rw [normSq_cons, ih]

lemma magnitude_eq_zero (v : List ℝ) : magnitude v = 0 ↔ normSq v = 0 := by
  unfold magnitude
  exact Real.sqrt_eq_zero (normSq_nonneg v)

lemma normalizeFeatures_length (v : List ℝ) :
    (CLIPTextExtractor.normalizeFeatures v).length = v.length := by
  unfold CLIPTextExtractor.normalizeFeatures
  by_cases h : magnitude v = 0
  · simp [h]
  · simp [h]

lemma normSq_normalizeFeatures (v : List ℝ) (h : normSq v ≠ 0) :
    normSq (CLIPTextExtractor.normalizeFeatures v) = 1 := by
  unfold CLIPTextExtractor.normalizeFeatures
  rw [if_neg (fun h0 => h ((magnitude_eq_zero v).mp h0))]
  rw [normSq_map_div]
  unfold magnitude
  rw [Real.sq_sqrt (normSq_nonneg v)]
  exact div_self h

/-- Claim C10.  `normalizeFeatures` is total and guarded against division by
zero: on any vector of zero norm (in particular the all-zero vector) it
returns the all-zero vector of the same length, and on any vector of nonzero
norm it returns a vector of the same length whose L2 norm is exactly 1 in the
real-number model (the source's floating-point rounding is the only
deviation); the image extractor's copy is the same function. -/
theorem C10_normalize_safety :
    (∀ v : List ℝ, normSq v = 0 →
        CLIPTextExtractor.normalizeFeatures v = List.replicate v.length 0) ∧
      (∀ v : List ℝ, normSq v ≠ 0 →
        (CLIPTextExtractor.normalizeFeatures v).length = v.length ∧
          Real.sqrt (normSq (CLIPTextExtractor.normalizeFeatures v)) = 1) ∧
      ∀ v : List ℝ, CLIPFeatureExtractor.normalizeFeatures v =
        CLIPTextExtractor.normalizeFeatures v := by
  refine ⟨fun v h => ?_, fun v h => ⟨normalizeFeatures_length v, ?_⟩, fun v => rfl⟩
  · unfold CLIPTextExtractor.normalizeFeatures
    rw [if_pos ((magnitude_eq_zero v).mpr h)]
  · rw [normSq_normalizeFeatures v h, Real.sqrt_one]

/-- Witness for C10: the zero vector maps to itself; `[3, 4]` maps to a
unit-norm vector of length 2. -/
theorem C10_witness :
    CLIPTextExtractor.normalizeFeatures [0, 0] = List.replicate (List.length [(0 : ℝ), 0]) 0 ∧
      (CLIPTextExtractor.normalizeFeatures [3, 4]).length = List.length [(3 : ℝ), 4] ∧
        Real.sqrt (normSq (CLIPTextExtractor.normalizeFeatures [3, 4])) = 1 :=
  ⟨C10_normalize_safety.1 [0, 0] (by norm_num [normSq]),
   C10_normalize_safety.2.1 [3, 4] (by norm_num [normSq])⟩

lemma clamp_rescale_bounds (x : ℝ) :
    0 ≤ (max (-1) (min 1 x) + 1) / 2 ∧ (max (-1) (min 1 x) + 1) / 2 ≤ 1 := by
  constructor
  · have h := le_max_left (-1 : ℝ) (min 1 x)
    linarith
  · have h := max_le (by norm_num : (-1 : ℝ) ≤ 1) (min_le_left (1 : ℝ) x)
    linarith

lemma magnitude_normalizeFeatures (v : List ℝ) (h : normSq v ≠ 0) :
    magnitude (CLIPTextExtractor.normalizeFeatures v) = 1 := by
  unfold magnitude
  rw [normSq_normalizeFeatures v h, Real.sqrt_one]

lemma similarity_of_unit_mags (t i : List ℝ) (hlen : t.length = i.length)
    (ht : |magnitude t - 1| ≤ 1/100) (hi : |magnitude i - 1| ≤ 1/100)
    (hdp : |dotProduct t i| ≤ 11/10) :
    calculateTextImageSimilarity t i =
      .ok ((max (-1) (min 1 (dotProduct t i)) + 1) / 2) := by
  simp only [calculateTextImageSimilarity]
  rw [if_neg (not_ne_iff.mpr hlen)]
  rw [if_neg (not_lt.mpr ht), if_neg (not_lt.mpr hi), if_neg (not_lt.mpr hdp)]

/-- Claim C9 (amended).  For every pair of equal-length vectors the similarity
is returned (no error) and lies in `[0, 1]`; and for every vector of nonzero
norm, the similarity of its normalization with itself is exactly 1 in the
real-number model.  (For the zero vector — excluded by the amendment — the
self-similarity is 1/2, see the counterexample.) -/
theorem C9_similarity_bounds_amended :
    (∀ t i : List ℝ, t.length = i.length →
        ∃ r, calculateTextImageSimilarity t i = .ok r ∧ 0 ≤ r ∧ r ≤ 1) ∧
      ∀ v : List ℝ, normSq v ≠ 0 →
        calculateTextImageSimilarity (CLIPTextExtractor.normalizeFeatures v)
          (CLIPTextExtractor.normalizeFeatures v) = .ok 1 := by
  constructor
  · intro t i h
    simp only [calculateTextImageSimilarity]
    rw [if_neg (not_ne_iff.mpr h)]
    exact ⟨_, rfl, clamp_rescale_bounds _⟩
  · intro v h
    have hmag := magnitude_normalizeFeatures v h
    have hdp : dotProduct (CLIPTextExtractor.normalizeFeatures v)
        (CLIPTextExtractor.normalizeFeatures v) = 1 := by
      rw [dotProduct_self, normSq_normalizeFeatures v h]
    rw [similarity_of_unit_mags _ _ rfl (by rw [hmag]; norm_num) (by rw [hmag]; norm_num)
      (by rw [hdp]; norm_num)]
    rw [hdp]
    norm_num [min_def, max_def]

/-- Witness for C9: the pair `([1], [1])` gets an in-range similarity, and the
normalized vector `[1]` has self-similarity exactly 1. -/
theorem C9_witness :
    (∃ r, calculateTextImageSimilarity [1] [1] = .ok r ∧ 0 ≤ r ∧ r ≤ 1) ∧
      calculateTextImageSimilarity (CLIPTextExtractor.normalizeFeatures [1])
        (CLIPTextExtractor.normalizeFeatures [1]) = .ok 1 :=
  ⟨C9_similarity_bounds_amended.1 [1] [1] rfl,
   C9_similarity_bounds_amended.2 [1] (by norm_num [normSq])⟩

lemma normalizeFeatures_zero_singleton :
    CLIPTextExtractor.normalizeFeatures [(0 : ℝ)] = [0] := by
  unfold CLIPTextExtractor.normalizeFeatures
  rw [if_pos ((magnitude_eq_zero _).mpr (by norm_num [normSq]))]
  rfl

/-- Counterexample for C9 as stated: the zero vector's self-similarity after
normalization is 1/2, not 1 — normalization leaves the zero vector zero, so
the dot product is 0 and rescaling gives `(0 + 1) / 2`. -/
theorem C9_counterexample :
    calculateTextImageSimilarity (CLIPTextExtractor.normalizeFeatures [(0 : ℝ)])
        (CLIPTextExtractor.normalizeFeatures [(0 : ℝ)]) = .ok (1/2) ∧
      ((1 : ℝ)/2) ≠ 1 := by
  constructor
  · rw [normalizeFeatures_zero_singleton]
    simp only [calculateTextImageSimilarity]
    rw [if_neg (not_ne_iff.mpr rfl)]
    rw [show magnitude [(0 : ℝ)] = 0 from (magnitude_eq_zero _).mpr (by norm_num [normSq])]
    rw [if_pos (show (1 : ℝ)/100 < |(0 : ℝ) - 1| by norm_num)]
    rw [normalizeFeatures_zero_singleton]
    rw [show dotProduct [(0 : ℝ)] [0] = 0 by simp [dotProduct]]
    rw [if_neg (show ¬((11 : ℝ)/10 < |(0 : ℝ)|) by norm_num)]
    norm_num [min_def, max_def]
  · norm_num

/-! ## Theorems: text search engine (C2, C3, C4)

First the properties of the stable descending insertion sort that models the
stable JS `Array.prototype.sort` with comparator
`(a, b) => b.similarity - a.similarity`: it permutes its input, sorts it
descendingly by similarity, and preserves the relative order of equal-keyed
elements (stated as: filtering any one similarity value commutes with the
sort). -/

lemma insertResultDesc_perm (x : TextSearchResult) (l : List TextSearchResult) :
    (insertResultDesc x l).Perm (x :: l) := by
  induction l with
  | nil => simp [insertResultDesc]
  | cons y ys ih =>
    by_cases h : x.similarity ≤ y.similarity
    · simp only [insertResultDesc]
      rw [if_pos h]
      exact (ih.cons y).trans (List.Perm.swap x y ys)
    · simp only [insertResultDesc]
      rw [if_neg h]

lemma sortAux_perm (l : List TextSearchResult) :
    ∀ acc, (l.foldl (fun acc x => insertResultDesc x acc) acc).Perm (acc ++ l) := by
  induction l with
  | nil => intro acc; simp
  | cons x t ih =>
    intro acc
    simp only [List.foldl_cons]
    refine (ih (insertResultDesc x acc)).trans ?_
    refine (((insertResultDesc_perm x acc).append_right t)).trans ?_
    simpa using List.perm_middle.symm

lemma sortResultsDesc_perm (l : List TextSearchResult) : (sortResultsDesc l).Perm l := by
  simpa using sortAux_perm l []

lemma insertResultDesc_sorted (x : TextSearchResult) (l : List TextSearchResult)
    (hl : l.Sorted similarityGE) : (insertResultDesc x l).Sorted similarityGE := by
  induction l with
  | nil => simp [insertResultDesc, List.sorted_singleton]
  | cons y ys ih =>
    rw [List.sorted_cons] at hl
    obtain ⟨hy, hys⟩ := hl
    by_cases h : x.similarity ≤ y.similarity
    · simp only [insertResultDesc]
      rw [if_pos h, List.sorted_cons]
      refine ⟨fun z hz => ?_, ih hys⟩
      rcases List.mem_cons.mp ((insertResultDesc_perm x ys).mem_iff.mp hz) with rfl | hz'
      · exact h
      · exact hy z hz'
    · simp only [insertResultDesc]
      rw [if_neg h, List.sorted_cons]
      refine ⟨fun z hz => ?_, by rw [List.sorted_cons]; exact ⟨hy, hys⟩⟩
      rcases List.mem_cons.mp hz with rfl | hz'
      · exact le_of_lt (not_le.mp h)
      · exact le_trans (hy z hz') (le_of_lt (not_le.mp h))

lemma sortAux_sorted (l : List TextSearchResult) :
    ∀ acc, acc.Sorted similarityGE →
      (l.foldl (fun acc x => insertResultDesc x acc) acc).Sorted similarityGE := by
  induction l with
  | nil => intro acc h; simpa using h
  | cons x t ih =>
    intro acc h
    simp only [List.foldl_cons]
    exact ih _ (insertResultDesc_sorted x acc h)

lemma sortResultsDesc_sorted (l : List TextSearchResult) :
    (sortResultsDesc l).Sorted similarityGE :=
  sortAux_sorted l [] (by simp)

lemma keyFilter_cons (v : ℝ) (y : TextSearchResult) (l : List TextSearchResult) :
    keyFilter v (y :: l) =
      if y.similarity = v then y :: keyFilter v l else keyFilter v l := by
  by_cases hy : y.similarity = v <;> simp [keyFilter, List.filter_cons, hy]

lemma keyFilter_append (v : ℝ) (l1 l2 : List TextSearchResult) :
    keyFilter v (l1 ++ l2) = keyFilter v l1 ++ keyFilter v l2 := by
  simp [keyFilter, List.filter_append]

lemma keyFilter_insert (v : ℝ) (x : TextSearchResult) (l : List TextSearchResult)
    (hl : l.Sorted similarityGE) :
    keyFilter v (insertResultDesc x l) =
      if x.similarity = v then keyFilter v l ++ [x] else keyFilter v l := by
  induction l with
  | nil =>
    by_cases hx : x.similarity = v <;>
      simp [insertResultDesc, keyFilter, List.filter_cons, hx]
  | cons y ys ih =>
    rw [List.sorted_cons] at hl
    obtain ⟨hy, hys⟩ := hl
    by_cases h : x.similarity ≤ y.similarity
    · simp only [insertResultDesc]
      rw [if_pos h, keyFilter_cons, keyFilter_cons, ih hys]
      by_cases hyv : y.similarity = v <;> by_cases hxv : x.similarity = v <;>
        simp [hyv, hxv]
    · simp only [insertResultDesc]
      rw [if_neg h, keyFilter_cons]
      by_cases hxv : x.similarity = v
      · rw [if_pos hxv, if_pos hxv]
        have hempty : keyFilter v (y :: ys) = [] := by
          unfold keyFilter
          rw [List.filter_eq_nil_iff]
          intro z hz
          have hzley : z.similarity ≤ y.similarity := by
            rcases List.mem_cons.mp hz with rfl | hz'
            · exact le_rfl
            · exact hy z hz'
          have : z.similarity < v := lt_of_le_of_lt hzley (hxv ▸ not_le.mp h)
          simpa using ne_of_lt this
        rw [hempty]
        rfl
      · rw [if_neg hxv, if_neg hxv]

lemma sortResultsDesc_append_singleton (l : List TextSearchResult) (x : TextSearchResult) :
    sortResultsDesc (l ++ [x]) = insertResultDesc x (sortResultsDesc l) := by
  simp [sortResultsDesc, List.foldl_append]

lemma keyFilter_sortResultsDesc (v : ℝ) (l : List TextSearchResult) :
    keyFilter v (sortResultsDesc l) = keyFilter v l := by
  induction l using List.reverseRecOn with
  | nil => rfl
  | append_singleton t x ih =>
    rw [sortResultsDesc_append_singleton,
      keyFilter_insert v x _ (sortResultsDesc_sorted t), ih, keyFilter_append]
    by_cases hx : x.similarity = v <;>
      simp [keyFilter, List.filter_cons, hx]

lemma innerFold_eq (queryFeatures : List ℝ) (minSimilarity : ℝ) (videoName : String)
    (scenes : List (SceneChangePoint ℝ)) :
    ∀ acc : List TextSearchResult,
      scenes.foldl
        (fun acc2 scene =>
          match scene.imageFeatures with
          | none => acc2
          | some features =>
            match calculateTextImageSimilarity queryFeatures features with
            | .ok similarity =>
              if minSimilarity ≤ similarity then
                acc2 ++ [{ videoName := videoName, scene := scene, similarity := similarity }]
              else acc2
            | .error _ => acc2)
        acc =
        acc ++ scenes.filterMap (resultOfScene queryFeatures minSimilarity videoName) := by
  induction scenes with
  | nil => intro acc; simp
  | cons scene t ih =>
    intro acc
    rw [List.foldl_cons, List.filterMap_cons]
    cases hf : scene.imageFeatures with
    | none =>
      simp only [resultOfScene, hf]
      exact ih acc
    | some features =>
      cases hsim : calculateTextImageSimilarity queryFeatures features with
      | error e =>
        simp only [resultOfScene, hf, hsim]
        exact ih acc
      | ok s =>
        by_cases hs : minSimilarity ≤ s
        · simp only [resultOfScene, hf, hsim, if_pos hs]
          rw [ih]
          simp
        · simp only [resultOfScene, hf, hsim, if_neg hs]
          exact ih acc

lemma outerFold_eq (queryFeatures : List ℝ) (minSimilarity : ℝ) (videoNames : List String)
    (allScenes : List (String × List (SceneChangePoint ℝ))) :
    ∀ acc : List TextSearchResult,
      allScenes.foldl
        (fun acc entry =>
          if 0 < videoNames.length ∧ entry.1 ∉ videoNames then acc
          else
            entry.2.foldl
              (fun acc2 scene =>
                match scene.imageFeatures with
                | none => acc2
                | some features =>
                  match calculateTextImageSimilarity queryFeatures features with
                  | .ok similarity =>
                    if minSimilarity ≤ similarity then
                      acc2 ++
                        [{ videoName := entry.1, scene := scene, similarity := similarity }]
                    else acc2
                  | .error _ => acc2)
              acc)
        acc =
        acc ++ eligibleResults queryFeatures minSimilarity videoNames allScenes := by
  induction allScenes with
  | nil => intro acc; simp [eligibleResults]
  | cons entry t ih =>
    intro acc
    rw [List.foldl_cons]
    by_cases hscope : 0 < videoNames.length ∧ entry.1 ∉ videoNames
    · rw [if_pos hscope]
      rw [ih acc]
      unfold eligibleResults
      rw [List.filter_cons_of_neg
        (by simpa using And.intro (List.length_pos.mp hscope.1) hscope.2)]
    · rw [if_neg hscope]
      rw [innerFold_eq queryFeatures minSimilarity entry.1 entry.2 acc]
      rw [ih (acc ++ entry.2.filterMap (resultOfScene queryFeatures minSimilarity entry.1))]
      unfold eligibleResults
      have hin : videoNames = [] ∨ entry.1 ∈ videoNames := by
        rcases eq_or_ne videoNames [] with he | he
        · exact Or.inl he
        · refine Or.inr ?_
          by_contra hmem
          exact hscope ⟨List.length_pos.mpr he, hmem⟩
      rw [List.filter_cons_of_pos (by simpa using hin)]
      rw [List.flatMap_cons]
      simp

lemma searchByText_eq (queryFeatures : List ℝ) (query : TextSearchQueryParams)
    (allScenes : List (String × List (SceneChangePoint ℝ))) :
    searchByText queryFeatures query allScenes =
      (sortResultsDesc (eligibleResults queryFeatures (query.minSimilarity.getD (2/10))
        (query.videoNames.getD []) allScenes)).take (query.limit.getD 10) := by
  simp only [searchByText]
  rw [outerFold_eq queryFeatures (query.minSimilarity.getD (2/10)) (query.videoNames.getD [])
    allScenes []]
  rfl

/-! ### Concrete similarity evaluations for the C2/C3/C4 examples

The magnitude checks of the source compare `|√(Σv²) - 1|` with `0.01`; they
are discharged by squaring: `0.99² ≤ Σv² ≤ 1.01²`. -/

lemma abs_mag_sub_one_le (v : List ℝ) (h1 : (99/100 : ℝ)^2 ≤ normSq v)
    (h2 : normSq v ≤ (101/100 : ℝ)^2) : |magnitude v - 1| ≤ 1/100 := by
  unfold magnitude
  rw [abs_le]
  constructor
  · have h3 : (99/100 : ℝ) ≤ Real.sqrt (normSq v) := Real.le_sqrt_of_sq_le h1
    linarith
  · have h4 : Real.sqrt (normSq v) ≤ 101/100 := by
      rw [show (101/100 : ℝ) = Real.sqrt ((101/100)^2) from (Real.sqrt_sq (by norm_num)).symm]
      exact Real.sqrt_le_sqrt h2
    linarith

lemma clamp_of_abs_le (d : ℝ) (hd : |d| ≤ 1) : max (-1) (min 1 d) = d := by
  rw [abs_le] at hd
  rw [min_eq_right hd.2, max_eq_right hd.1]

lemma similarity_concrete (i : List ℝ) (d : ℝ) (hlen : i.length = 2)
    (hi : |magnitude i - 1| ≤ 1/100) (hdp : dotProduct exampleQueryFeatures i = d)
    (hd : |d| ≤ 1) :
    calculateTextImageSimilarity exampleQueryFeatures i = .ok ((d + 1) / 2) := by
  have hq : |magnitude exampleQueryFeatures - 1| ≤ 1/100 :=
    abs_mag_sub_one_le _ (by norm_num [normSq, exampleQueryFeatures])
      (by norm_num [normSq, exampleQueryFeatures])
  rw [similarity_of_unit_mags exampleQueryFeatures i (by simp [exampleQueryFeatures, hlen])
    hq hi (by rw [hdp]; exact le_trans hd (by norm_num))]
  rw [hdp, clamp_of_abs_le d hd]

lemma simEval1 : calculateTextImageSimilarity exampleQueryFeatures [(0.8 : ℝ), 0.6] =
    .ok (9/10) := by
  rw [similarity_concrete [(0.8 : ℝ), 0.6] (8/10) rfl
    (abs_mag_sub_one_le _ (by norm_num [normSq]) (by norm_num [normSq]))
    (by norm_num [dotProduct, exampleQueryFeatures]) (by rw [abs_le]; constructor <;> norm_num)]
  norm_num

lemma simEval2 : calculateTextImageSimilarity exampleQueryFeatures [(0 : ℝ), 1] =
    .ok (5/10) := by
  rw [similarity_concrete [(0 : ℝ), 1] 0 rfl
    (abs_mag_sub_one_le _ (by norm_num [normSq]) (by norm_num [normSq]))
    (by norm_num [dotProduct, exampleQueryFeatures]) (by rw [abs_le]; constructor <;> norm_num)]
  norm_num

lemma simEval3 : calculateTextImageSimilarity exampleQueryFeatures [(-0.4 : ℝ), 0.91] =
    .ok (3/10) := by
  rw [similarity_concrete [(-0.4 : ℝ), 0.91] (-4/10) rfl
    (abs_mag_sub_one_le _ (by norm_num [normSq]) (by norm_num [normSq]))
    (by norm_num [dotProduct, exampleQueryFeatures]) (by rw [abs_le]; constructor <;> norm_num)]
  norm_num

lemma simEval4 : calculateTextImageSimilarity exampleQueryFeatures [(-0.8 : ℝ), 0.6] =
    .ok (1/10) := by
  rw [similarity_concrete [(-0.8 : ℝ), 0.6] (-8/10) rfl
    (abs_mag_sub_one_le _ (by norm_num [normSq]) (by norm_num [normSq]))
    (by norm_num [dotProduct, exampleQueryFeatures]) (by rw [abs_le]; constructor <;> norm_num)]
  norm_num

lemma simEval5 : calculateTextImageSimilarity exampleQueryFeatures [(-0.9 : ℝ), 0.45] =
    .ok (5/100) := by
  rw [similarity_concrete [(-0.9 : ℝ), 0.45] (-9/10) rfl
    (abs_mag_sub_one_le _ (by norm_num [normSq]) (by norm_num [normSq]))
    (by norm_num [dotProduct, exampleQueryFeatures]) (by rw [abs_le]; constructor <;> norm_num)]
  norm_num

lemma simEval017 : calculateTextImageSimilarity exampleQueryFeatures [(-0.66 : ℝ), 0.75] =
    .ok (17/100) := by
  rw [similarity_concrete [(-0.66 : ℝ), 0.75] (-66/100) rfl
    (abs_mag_sub_one_le _ (by norm_num [normSq]) (by norm_num [normSq]))
    (by norm_num [dotProduct, exampleQueryFeatures]) (by rw [abs_le]; constructor <;> norm_num)]
  norm_num

lemma resEval1 : resultOfScene exampleQueryFeatures (2/10) "video1" c2Scene1 =
    some c2Result1 := by
  unfold resultOfScene
  simp only [show c2Scene1.imageFeatures = some [(0.8 : ℝ), 0.6] from rfl, simEval1]
  rw [if_pos (by norm_num)]
  rfl

lemma resEval2 : resultOfScene exampleQueryFeatures (2/10) "video1" c2Scene2 =
    some c2Result2 := by
  unfold resultOfScene
  simp only [show c2Scene2.imageFeatures = some [(0 : ℝ), 1] from rfl, simEval2]
  rw [if_pos (by norm_num)]
  rfl

lemma resEval3 : resultOfScene exampleQueryFeatures (2/10) "video1" c2Scene3 =
    some c2Result3 := by
  unfold resultOfScene
  simp only [show c2Scene3.imageFeatures = some [(-0.4 : ℝ), 0.91] from rfl, simEval3]
  rw [if_pos (by norm_num)]
  rfl

lemma resEval4 : resultOfScene exampleQueryFeatures (2/10) "video1" c2Scene4 = none := by
  unfold resultOfScene
  simp only [show c2Scene4.imageFeatures = some [(-0.8 : ℝ), 0.6] from rfl, simEval4]
  rw [if_neg (by norm_num)]

lemma resEval5 : resultOfScene exampleQueryFeatures (2/10) "video1" c2Scene5 = none := by
  unfold resultOfScene
  simp only [show c2Scene5.imageFeatures = some [(-0.9 : ℝ), 0.45] from rfl, simEval5]
  rw [if_neg (by norm_num)]

lemma eligible_example : eligibleResults exampleQueryFeatures (2/10) [] c2ScenesMap =
    [c2Result1, c2Result2, c2Result3] := by
  unfold eligibleResults c2ScenesMap
  rw [List.filter_cons_of_pos (by simp)]
  rw [List.filter_nil, List.flatMap_cons, List.flatMap_nil]
  simp only [List.filterMap_cons, resEval1, resEval2, resEval3, resEval4, resEval5,
    List.filterMap_nil]
  simp

lemma sort_example : sortResultsDesc [c2Result1, c2Result2, c2Result3] =
    [c2Result1, c2Result2, c2Result3] := by
  unfold sortResultsDesc
  simp only [List.foldl_cons, List.foldl_nil]
  rw [show insertResultDesc c2Result1 [] = [c2Result1] from rfl]
  rw [show insertResultDesc c2Result2 [c2Result1] = [c2Result1, c2Result2] by
    simp only [insertResultDesc]
    rw [if_pos (by norm_num [c2Result1, c2Result2])]]
  rw [show insertResultDesc c2Result3 [c2Result1, c2Result2] =
      [c2Result1, c2Result2, c2Result3] by
    simp only [insertResultDesc]
    rw [if_pos (by norm_num [c2Result1, c2Result3]),
      if_pos (by norm_num [c2Result2, c2Result3])]]

lemma search_example_eval :
    searchByText exampleQueryFeatures
        { limit := some 2, minSimilarity := some (2/10), videoNames := none } c2ScenesMap =
      [c2Result1, c2Result2] := by
  rw [searchByText_eq]
  simp only [Option.getD_some, Option.getD_none]
  rw [eligible_example, sort_example]
  rfl

/-- Claim C2.  Every search returns exactly the truncation, to the configured
limit, of a stable descending sort (by similarity) of the eligible results —
the in-scope scenes carrying an embedding whose similarity is defined and at
least `minSimilarity`, in map insertion order; the sort is a permutation of
the eligible list, is sorted descendingly, and preserves the relative order of
equal-similarity results (stability).  In particular, for five shots with
similarities 0.9, 0.5, 0.3, 0.1, 0.05 and `minSimilarity = 0.2, limit = 2`,
the result is exactly the shots with similarities 0.9 then 0.5. -/
theorem C2_search_filter_sort_truncate :
    (∀ (queryFeatures : List ℝ) (query : TextSearchQueryParams)
        (allScenes : List (String × List (SceneChangePoint ℝ))),
        searchByText queryFeatures query allScenes =
          (sortResultsDesc (eligibleResults queryFeatures (query.minSimilarity.getD (2/10))
            (query.videoNames.getD []) allScenes)).take (query.limit.getD 10) ∧
          (sortResultsDesc (eligibleResults queryFeatures (query.minSimilarity.getD (2/10))
            (query.videoNames.getD []) allScenes)).Perm
            (eligibleResults queryFeatures (query.minSimilarity.getD (2/10))
              (query.videoNames.getD []) allScenes) ∧
          (sortResultsDesc (eligibleResults queryFeatures (query.minSimilarity.getD (2/10))
            (query.videoNames.getD []) allScenes)).Sorted similarityGE ∧
          ∀ v : ℝ, keyFilter v (sortResultsDesc (eligibleResults queryFeatures
              (query.minSimilarity.getD (2/10)) (query.videoNames.getD []) allScenes)) =
            keyFilter v (eligibleResults queryFeatures (query.minSimilarity.getD (2/10))
              (query.videoNames.getD []) allScenes)) ∧
      searchByText exampleQueryFeatures
          { limit := some 2, minSimilarity := some (2/10), videoNames := none } c2ScenesMap =
        [c2Result1, c2Result2] :=
  ⟨fun queryFeatures query allScenes =>
    ⟨searchByText_eq queryFeatures query allScenes, sortResultsDesc_perm _,
      sortResultsDesc_sorted _, fun v => keyFilter_sortResultsDesc v _⟩,
   search_example_eval⟩

/-- Claim C3 (amended).  When `limit`, `minSimilarity` and `videoNames` are
omitted, `searchByText` behaves exactly as with the explicit values
`limit = 10`, `minSimilarity = 0.2` (not the claimed 0.15) and an empty video
scope. -/
theorem C3_defaults_amended (queryFeatures : List ℝ)
    (allScenes : List (String × List (SceneChangePoint ℝ))) :
    searchByText queryFeatures {} allScenes =
      searchByText queryFeatures
        { limit := some 10, minSimilarity := some (2/10), videoNames := some [] } allScenes :=
  rfl

lemma resEval017_default : resultOfScene exampleQueryFeatures (2/10) "video1" c3Scene =
    none := by
  unfold resultOfScene
  simp only [show c3Scene.imageFeatures = some [(-0.66 : ℝ), 0.75] from rfl, simEval017]
  rw [if_neg (by norm_num)]

lemma resEval017_spec : resultOfScene exampleQueryFeatures (15/100) "video1" c3Scene =
    some { videoName := "video1", scene := c3Scene, similarity := 17/100 } := by
  unfold resultOfScene
  simp only [show c3Scene.imageFeatures = some [(-0.66 : ℝ), 0.75] from rfl, simEval017]
  rw [if_pos (by norm_num)]

/-- Counterexample for C3 as stated: a shot of similarity 0.17 is dropped when
the parameters are omitted (the code's default threshold is 0.2), but kept by
an explicit `minSimilarity = 0.15` — so the omitted-parameter default is not
0.15. -/
theorem C3_counterexample :
    searchByText exampleQueryFeatures {} c3ScenesMap = [] ∧
      searchByText exampleQueryFeatures
          { limit := some 10, minSimilarity := some (15/100), videoNames := some [] }
          c3ScenesMap =
        [{ videoName := "video1", scene := c3Scene, similarity := 17/100 }] := by
  constructor
  · rw [searchByText_eq]
    simp only [Option.getD_none]
    unfold eligibleResults c3ScenesMap
    rw [List.filter_cons_of_pos (by simp)]
    rw [List.filter_nil, List.flatMap_cons, List.flatMap_nil]
    simp only [List.filterMap_cons, resEval017_default, List.filterMap_nil]
    rfl
  · rw [searchByText_eq]
    simp only [Option.getD_some]
    unfold eligibleResults c3ScenesMap
    rw [List.filter_cons_of_pos (by simp)]
    rw [List.filter_nil, List.flatMap_cons, List.flatMap_nil]
    simp only [List.filterMap_cons, resEval017_spec, List.filterMap_nil]
    rfl

/-- Witness for C3: with omitted parameters, the 0.17-similarity shot map
yields the same (empty) answer as the explicit `(10, 0.2, [])` call. -/
theorem C3_witness :
    searchByText exampleQueryFeatures {} c3ScenesMap =
      searchByText exampleQueryFeatures
        { limit := some 10, minSimilarity := some (2/10), videoNames := some [] }
        c3ScenesMap :=
  C3_defaults_amended exampleQueryFeatures c3ScenesMap

lemma calculateTextImageSimilarity_ok_lengths (t i : List ℝ) (s : ℝ)
    (h : calculateTextImageSimilarity t i = .ok s) : t.length = i.length := by
  by_contra hne
  simp only [calculateTextImageSimilarity] at h
  rw [if_pos hne] at h
  exact absurd h (by simp)

/-- Claim C4 (amended).  `calculateTextImageSimilarity` does throw an explicit
error on mismatched vector lengths, but `searchByText` catches it per scene
(the source logs a console warning) and silently excludes the shot from the
results: the caller of the search receives a normal result list in which every
entry carries an embedding of the query's length with a successfully computed
similarity, and no error. -/
theorem C4_mismatch_amended :
    (∀ t i : List ℝ, t.length ≠ i.length →
        calculateTextImageSimilarity t i = .error mismatchErrorMessage) ∧
      ∀ (queryFeatures : List ℝ) (query : TextSearchQueryParams)
        (allScenes : List (String × List (SceneChangePoint ℝ))) (r : TextSearchResult),
        r ∈ searchByText queryFeatures query allScenes →
          ∃ features, r.scene.imageFeatures = some features ∧
            features.length = queryFeatures.length ∧
            calculateTextImageSimilarity queryFeatures features = .ok r.similarity := by
  constructor
  · intro t i h
    simp only [calculateTextImageSimilarity]
    rw [if_pos h]
  · intro queryFeatures query allScenes r hr
    rw [searchByText_eq] at hr
    have hr2 := List.take_subset _ _ hr
    have hr3 := (sortResultsDesc_perm _).mem_iff.mp hr2
    unfold eligibleResults at hr3
    obtain ⟨entry, _, hr4⟩ := List.mem_flatMap.mp hr3
    obtain ⟨scene, _, hres⟩ := List.mem_filterMap.mp hr4
    unfold resultOfScene at hres
    cases hf : scene.imageFeatures with
    | none =>
      simp only [hf] at hres
      exact Option.noConfusion hres
    | some features =>
      cases hsim : calculateTextImageSimilarity queryFeatures features with
      | error e =>
        simp only [hf, hsim] at hres
        exact Option.noConfusion hres
      | ok s =>
        simp only [hf, hsim] at hres
        split_ifs at hres with hmin
        · rw [Option.some_inj] at hres
          refine ⟨features, ?_, ?_, ?_⟩
          · rw [← hres]
            exact hf
          · exact (calculateTextImageSimilarity_ok_lengths _ _ _ hsim).symm
          · rw [← hres]
            exact hsim

/-- Witness for C4: the mismatched pair `([1], [])` yields the error, and the
first result of the concrete C2 search indeed carries a length-2 embedding
with its computed similarity. -/
theorem C4_witness :
    calculateTextImageSimilarity [(1 : ℝ)] [] = .error mismatchErrorMessage ∧
      ∃ features, c2Result1.scene.imageFeatures = some features ∧
        features.length = exampleQueryFeatures.length ∧
        calculateTextImageSimilarity exampleQueryFeatures features = .ok c2Result1.similarity :=
  ⟨C4_mismatch_amended.1 [1] [] (by simp),
   C4_mismatch_amended.2 exampleQueryFeatures
     { limit := some 2, minSimilarity := some (2/10), videoNames := none } c2ScenesMap
     c2Result1 (by rw [search_example_eval]; simp)⟩

/-- Counterexample for C4 as stated: searching a map whose only shot has a
dimensionality-mismatched embedding (length 1 against a length-2 query)
returns normally with the empty list — the error thrown by the similarity
kernel is caught inside `searchByText` and never surfaced to the search
caller, and the shot is skipped. -/
theorem C4_counterexample :
    calculateTextImageSimilarity exampleQueryFeatures [(1 : ℝ)] = .error mismatchErrorMessage ∧
      searchByText exampleQueryFeatures {} c4ScenesMap = [] := by
  have herr : calculateTextImageSimilarity exampleQueryFeatures [(1 : ℝ)] =
      .error mismatchErrorMessage := by
    simp only [calculateTextImageSimilarity]
    rw [if_pos (by simp [exampleQueryFeatures])]
  refine ⟨herr, ?_⟩
  rw [searchByText_eq]
  simp only [Option.getD_none]
  unfold eligibleResults c4ScenesMap
  rw [List.filter_cons_of_pos (by simp)]
  rw [List.filter_nil, List.flatMap_cons, List.flatMap_nil]
  have hres : resultOfScene exampleQueryFeatures (2/10) "video1" c4MismatchedScene = none := by
    unfold resultOfScene
    simp only [show c4MismatchedScene.imageFeatures = some [(1 : ℝ)] from rfl, herr]
  simp only [List.filterMap_cons, hres, List.filterMap_nil]
  rfl

end VideoSearch
